import Mathlib

/-!
Verification of the Expense-Tracker document question-answering pipeline.

The development shallowly embeds the repository's Python code:

* `app/pdf_utlis.py`   → `extract_text_from_pdf`
* `app/vectorstore_utlis.py` → `create_faiss_index`, `retrive_relevant_docs`
* `app/chat_utlis.py`  → `get_chat_model`, `ask_chat_model`
* `app/ui.py`          → `speak_text`
* `main.py`            → `processDocuments` (the "Process Documents" button
  handler) and `chatTurn` (the chat prompt handler), plus `mkSystemPrompt`
  (the grounding-prompt f-string) and the session state record.

External effects are made explicit:
* Each call into an external library or remote API (pypdf page extraction,
  FAISS similarity search, the euriai completion endpoint, gTTS) is
  parametrised by its outcome (`Except`/`Option` values or functions kept
  abstract in a `TurnEnv` record), so that raising Python exceptions becomes
  returning `Except.error`.
* Streamlit's `st.session_state` becomes the `Session` record threaded
  through the handlers; `st.error`/`st.warning` reports become the returned
  `List String` (informational `st.info`/`st.success`/progress calls carry
  no state and are not modelled).
* Python truthiness of an optional value is `Option.isSome` combined, for
  strings and byte strings, with a non-emptiness test.

Two computations live outside the repository and are modelled from the
specification, as their doc comments state: the recursive character text
splitter (langchain) and the vector similarity search (FAISS).
-/

namespace ExpenseTracker

/-- Audio byte strings (MP3 data) are modelled as lists of bytes. -/
abbrev ByteData := List Nat

/-- The chat-model handle returned by `euriai.langchain.create_chat_model`;
its only role in the embedded code is to be present or absent, so an opaque
numeric identifier suffices. -/
abbrev ChatModel := Nat

/-- The FAISS vectorstore built by `create_faiss_index`: it owns the indexed
chunk texts (`FAISS.from_texts`).  Embedding vectors are abstracted into the
per-query distance function carried by `TurnEnv`. -/
structure SearchIndex where
  chunks : List String
deriving DecidableEq

/-- One entry of `st.session_state.messages` in `main.py`: a dict with keys
`role`, `content`, `timestamp` and optionally `audio_id`. -/
structure Message where
  role : String
  content : String
  timestamp : String
  audio_id : Option String
deriving DecidableEq

/-- The Streamlit session state fields touched by the embedded handlers
(`main.py` session-state block and `app/ui.py`): chat history, the FAISS
vectorstore, the chat model, the audio cache keyed by audio id, and the
`last_tts` slot written by `speak_text`. -/
structure Session where
  messages : List Message
  vectorstore : Option SearchIndex
  chat_model : Option ChatModel
  audio_cache : List (String × ByteData)
  last_tts : Option ByteData
deriving DecidableEq

/-- The session before any ingestion: all fields at their initial values
from the session-state initialisation block of `main.py`. -/
def emptySession : Session := ⟨[], none, none, [], none⟩

/-- Python's `sep.join(list)` for the empty separator, as used by
`''.join(text)` in `extract_text_from_pdf`: plain concatenation. -/
def join0 : List String → String
  | [] => ""
  | s :: rest => s ++ join0 rest

/-- Python's `sep.join(list)` for an arbitrary separator, as used by
`"\n\n".join(...)` when the chat handler builds the context. -/
def joinSep (sep : String) : List String → String
  | [] => ""
  | [s] => s
  | s :: rest => s ++ sep ++ joinSep sep rest

/-- A parsed PDF as `pypdf.PdfReader` exposes it to `extract_text_from_pdf`:
a list of pages, where `page.extract_text()` yields `none` for a page with
no extractable text (Python `None`) or `some t` for extracted text `t`
(possibly empty).  An unparseable stream is an `Except.error` upstream of
this structure. -/
structure PdfDoc where
  pages : List (Option String)
deriving DecidableEq

/-- Embeds `extract_text_from_pdf` from `app/pdf_utlis.py`.  The input is
the outcome of `PdfReader(file)`: `Except.error` when the stream is not a
valid PDF (the function re-raises with the `"Error reading PDF: "` prefix),
otherwise the parsed document.  Per page the code runs
`page_text = page.extract_text()` and appends it only `if page_text:`
(truthy: not `None` and not empty), finally returning `''.join(text)`. -/
def extract_text_from_pdf : Except String PdfDoc → Except String String
  | .error e => .error ("Error reading PDF: " ++ e)
  | .ok doc => .ok (join0 (doc.pages.filterMap (fun p =>
      match p with
      | none => none
      | some s => if s = "" then none else some s)))

/-- Modelled from the spec: the chunking algorithm itself lives in
langchain's `RecursiveCharacterTextSplitter`, not in this repository; the
repository only configures it (`chunk_size=1000, chunk_overlap=200,
length_function=len` in `main.py`).  Following the spec's Chunker contract:
each produced chunk has length at most `C`; each chunk after the first
begins `C - O` characters after the previous one, so consecutive chunks
overlap by `O` characters; empty text yields zero chunks; text of length at
most `C` yields the single chunk equal to the text.  The `fuel` argument
only bounds the recursion depth (each step consumes at least one character,
so `fuel = s.length` at the top call is always sufficient). -/
def chunkGo (C O : Nat) : Nat → List Char → List (List Char)
  | 0, _ => []
  | fuel + 1, s =>
    if s.length = 0 then []
    else if s.length ≤ C ∨ C ≤ O then [s]
    else s.take C :: chunkGo C O fuel (s.drop (C - O))

/-- Modelled from the spec: `text_splitter.split_text(text)` with maximum
chunk size `chunk_size` and overlap `chunk_overlap`, see `chunkGo`. -/
def split_text (chunk_size chunk_overlap : Nat) (text : String) : List String :=
  (chunkGo chunk_size chunk_overlap text.data.length text.data).map String.mk

/-- Embeds `create_faiss_index` from `app/vectorstore_utlis.py`: raises a
`RuntimeError` when the optional FAISS dependency failed to import
(`_FAISS_AVAILABLE` is false), otherwise builds the vectorstore from the
chunk texts (`FAISS.from_texts`). -/
def create_faiss_index (faissAvailable : Bool) (texts : List String) :
    Except String SearchIndex :=
  if faissAvailable then .ok ⟨texts⟩
  else .error ("FAISS is not available in this environment.\nTo enable FAISS, deploy with a conda environment that installs \x27faiss-cpu\x27\nor use a Docker image that includes prebuilt FAISS binaries.\nAs a quick workaround, you can skip document indexing in this environment.")

/-- Embeds `get_chat_model` from `app/chat_utlis.py`: the argument is the
outcome of the external `create_chat_model(api_key=..., model=...,
temperature=...)` call; an exception there is re-raised with the
`"Failed to create chat model: "` prefix. -/
def get_chat_model (createResult : Except String ChatModel) :
    Except String ChatModel :=
  match createResult with
  | .error e => .error ("Failed to create chat model: " ++ e)
  | .ok m => .ok m

/-- Embeds `ask_chat_model` from `app/chat_utlis.py`.  `invoke` is the
external `chat_model.invoke`: an exception becomes `Except.error`; a falsy
response (Python `None`) becomes `Except.ok none`; a truthy response with
content `c` becomes `Except.ok (some c)`.  The code returns
`response.content if response else "No response received."` and re-raises
exceptions with the `"Error during query to chat model: "` prefix. -/
def ask_chat_model (invoke : String → Except String (Option String))
    (prompt : String) : Except String String :=
  match invoke prompt with
  | .error e => .error ("Error during query to chat model: " ++ e)
  | .ok response =>
    .ok (match response with
         | some content => content
         | none => "No response received.")

/-- Modelled from the spec: the ranked ids returned by the similarity
search backend (`query(index, vector, k) -> ranked ids`), which lives in
FAISS, not in this repository.  `d i` is the distance from the embedded
query to the embedding of chunk `i`; the backend ranks all `n` indexed
chunks by ascending distance (stably) and returns the first `k`. -/
def rankedIds (n : Nat) (d : Nat → Nat) (k : Nat) : List Nat :=
  (List.insertionSort (fun i j => d i ≤ d j) (List.range n)).take k

/-- Modelled from the spec: `vectorstore.similarity_search(query, k=k)`
returns the texts of the top-`k` ranked chunks, see `rankedIds`. -/
def similaritySearch (vs : SearchIndex) (d : Nat → Nat) (k : Nat) :
    List String :=
  (rankedIds vs.chunks.length d k).map (fun i => vs.chunks.getD i "")

/-- Embeds `retrive_relevant_docs` from `app/vectorstore_utlis.py`: raises
a `RuntimeError` when FAISS is unavailable or the vectorstore is `None`,
otherwise delegates to `vectorstore.similarity_search(query, k=k)` (with
`dist query` the distance function induced by embedding `query`). -/
def retrive_relevant_docs (faissAvailable : Bool)
    (vectorstore : Option SearchIndex) (dist : String → Nat → Nat)
    (query : String) (k : Nat := 4) : Except String (List String) :=
  match faissAvailable, vectorstore with
  | true, some vs => .ok (similaritySearch vs (dist query) k)
  | _, _ => .error "Vector search is not available because FAISS is missing or vectorstore is not initialized."

/-- The fixed instruction block that opens the `system_prompt` f-string in
the chat handler of `main.py`, up to and including the
`"Expense Documents Context:"` label line. -/
def instructionBlock : String :=
  "You are an intelligent expense document assistant specializing in analyzing expense documents.\nBased on the following expense documents, provide accurate and helpful answers to user questions.\n- If the information is in the documents, provide a detailed answer with specific details.\n- If the information is NOT in the documents, clearly state that.\n- Always cite which part of the documents you\x27re referencing when possible.\nExpense Documents Context:\n"

/-- Embeds `context = "\n\n".join([doc.page_content for doc in
relevant_docs])` from the chat handler: the retrieved chunk texts joined by
blank lines, in retrieval-rank order. -/
def mkContext (docs : List String) : String := joinSep "\n\n" docs

/-- Embeds the `system_prompt` f-string of the chat handler in `main.py`:
the instruction block, the context, the `"User Question: "` label with the
literal user prompt, and the closing request. -/
def mkSystemPrompt (docs : List String) (prompt : String) : String :=
  instructionBlock ++ mkContext docs ++ "\nUser Question: " ++ prompt ++ "\nPlease provide a comprehensive answer:"

/-- Embeds `speak_text` from `app/ui.py`.  `gttsAvailable` models the
`from gtts import gTTS` import succeeding; `gttsOutcome` models the
external gTTS synthesis (`Except.error` when `gTTS(...)`/`write_to_fp`
raises, otherwise the produced MP3 bytes, possibly empty).  Returns the
`Option` result (`None` on every failure path), the updated session (the
code writes `st.session_state['last_tts']` only on success, just before
returning) and the list of `st.error` reports.  The `play` flag only
triggers `st.audio`, which carries no session state. -/
def speak_text (text : String) (_lang : String) (_play : Bool)
    (gttsAvailable : Bool) (gttsOutcome : Except String ByteData)
    (st : Session) : Option ByteData × Session × List String :=
  if text = "" then
    (none, st, ["Text cannot be empty."])
  else if gttsAvailable = false then
    (none, st, ["Text-to-speech is not available: please install `gTTS` in the Python environment running Streamlit (e.g., `pip install gTTS`)."])
  else
    match gttsOutcome with
    | .error e => (none, st, ["TTS failed: " ++ e])
    | .ok data =>
      if data = [] then (none, st, ["TTS generated no audio data."])
      else (some data, { st with last_tts := some data }, [])

/-- The user message appended to `st.session_state.messages` by the chat
handler. -/
def userMessage (content timestamp : String) : Message :=
  ⟨"user", content, timestamp, none⟩

/-- The assistant message appended to `st.session_state.messages` by the
chat handler; `audio_id` is present only when audio was generated. -/
def assistantMessage (content timestamp : String) (audioId : Option String) :
    Message :=
  ⟨"assistant", content, timestamp, audioId⟩

/-- The per-turn external world of the chat handler: FAISS availability,
the distance function induced by embedding a query, the completion
backend, gTTS availability and outcome, the fresh `uuid` audio id, and the
turn timestamp. -/
structure TurnEnv where
  faissAvailable : Bool
  dist : String → Nat → Nat
  invoke : String → Except String (Option String)
  gttsAvailable : Bool
  gttsOutcome : Except String ByteData
  audioId : String
  timestamp : String

/-- The first action of the chat prompt handler of `main.py` on a submitted
prompt: append the user message to `st.session_state.messages`. -/
def withUserMessage (st : Session) (prompt ts : String) : Session :=
  { st with messages := st.messages ++ [userMessage prompt ts] }

/-- The response part of the chat prompt handler of `main.py`, run after
the user message was appended: only when both the vectorstore and the chat
model are set (Python truthiness of the session fields) the handler
retrieves, builds the grounding prompt, queries the model, generates
audio, and appends the assistant message — any exception inside that `try`
block is caught and reported (`st.error`), leaving the session as it was
when the block was entered.  With no vectorstore/chat model it only
reports `"⚠️ Please upload and process documents first!"`. -/
def chatRespond (st1 : Session) (prompt : String) (env : TurnEnv) :
    Session × List String :=
  if st1.vectorstore.isSome && st1.chat_model.isSome then
    match retrive_relevant_docs env.faissAvailable st1.vectorstore env.dist prompt with
    | .error e => (st1, ["❌ Error generating response: " ++ e])
    | .ok relevant_docs =>
      match ask_chat_model env.invoke (mkSystemPrompt relevant_docs prompt) with
      | .error e => (st1, ["❌ Error generating response: " ++ e])
      | .ok response =>
        match speak_text response "en" false env.gttsAvailable env.gttsOutcome st1 with
        | (some data, st2, reps) =>
          ({ st2 with
              audio_cache := st2.audio_cache ++ [(env.audioId, data)],
              messages := st2.messages ++
                [assistantMessage response env.timestamp (some env.audioId)] },
           reps)
        | (none, st2, reps) =>
          ({ st2 with
              messages := st2.messages ++
                [assistantMessage response env.timestamp none] },
           reps ++ ["⚠️ Audio generation failed, but text response is available"])
  else
    (st1, ["⚠️ Please upload and process documents first!"])

/-- Embeds the chat prompt handler of `main.py` (the `if prompt:` block):
append the user message, then respond. -/
def chatTurn (st0 : Session) (prompt : String) (env : TurnEnv) :
    Session × List String :=
  chatRespond (withUserMessage st0 prompt env.timestamp) prompt env

/-- The extraction loop of the "Process Documents" handler in `main.py`:
`extract_text_from_pdf` over every uploaded file, failing as soon as one
raises. -/
def extractAll : List (Except String PdfDoc) → Except String (List String)
  | [] => .ok []
  | f :: fs =>
    match extract_text_from_pdf f with
    | .error e => .error e
    | .ok t =>
      match extractAll fs with
      | .error e => .error e
      | .ok ts => .ok (t :: ts)

/-- The chunking loop of the "Process Documents" handler: `chunks` is
extended with `text_splitter.split_text(text)` for every extracted text,
with the configured `chunk_size=1000, chunk_overlap=200`. -/
def chunksOf (texts : List String) : List String :=
  texts.flatMap (fun t => split_text 1000 200 t)

/-- Embeds the "Process Documents" button handler of `main.py`.  Inside a
single `try` block the handler extracts all texts, chunks them, builds the
FAISS index, assigns `st.session_state.vectorstore`, creates the chat model
(outcome `chatModelResult` of the external `create_chat_model`), and
assigns `st.session_state.chat_model`; any exception is caught and reported
(`st.error`), leaving the session exactly as far as the handler got:
in particular a chat-model-creation failure happens after the new
vectorstore was already stored. -/
def processDocuments (st0 : Session) (files : List (Except String PdfDoc))
    (faissAvailable : Bool) (chatModelResult : Except String ChatModel) :
    Session × List String :=
  match extractAll files with
  | .error e => (st0, ["❌ Error processing documents: " ++ e])
  | .ok all_texts =>
    match create_faiss_index faissAvailable (chunksOf all_texts) with
    | .error e => (st0, ["❌ Error processing documents: " ++ e])
    | .ok vectorstore =>
      let st1 := { st0 with vectorstore := some vectorstore }
      match get_chat_model chatModelResult with
      | .error e => (st1, ["❌ Error processing documents: " ++ e])
      | .ok chat_model => ({ st1 with chat_model := some chat_model }, [])

/-! ### Helper lemmas -/

/-- Every chunk produced by the chunker has length at most `C` as long as
the configured overlap is smaller than the chunk size. -/
theorem chunkGo_length_le (C O : Nat) (hO : O < C) (fuel : Nat) :
    ∀ s c, c ∈ chunkGo C O fuel s → c.length ≤ C := by
  induction fuel with
  | zero => intro s c h; simp [chunkGo] at h
  | succ n ih =>
    intro s c h
    simp only [chunkGo] at h
    by_cases h0 : s.length = 0
    · simp [h0] at h
    · rw [if_neg h0] at h
      by_cases h1 : s.length ≤ C ∨ C ≤ O
      · rw [if_pos h1] at h
        rcases List.mem_singleton.mp h with rfl
        rcases h1 with h1 | h1
        · exact h1
        · omega
      · rw [if_neg h1] at h
        rcases List.mem_cons.mp h with rfl | hc
        · simp [List.length_take]
        · exact ih _ _ hc

/-- Unfolding lemma for `join0`. -/
theorem join0_cons (s : String) (rest : List String) :
    join0 (s :: rest) = s ++ join0 rest := rfl

/-- Prepending the empty string is the identity. -/
theorem empty_append_str (s : String) : "" ++ s = s := by cases s; rfl

/-- Dropping falsy page texts before an empty-separator join equals joining
every page text with `None` read as the empty string: the 'if page_text:'
filter in `extract_text_from_pdf` loses nothing. -/
theorem join0_filter_falsy (pages : List (Option String)) :
    join0 (pages.filterMap (fun p =>
      match p with
      | none => none
      | some s => if s = "" then none else some s)) =
    join0 (pages.map (fun p => p.getD "")) := by
  induction pages with
  | nil => rfl
  | cons p ps ih =>
    cases p with
    | none =>
      simp only [List.filterMap_cons, List.map_cons, Option.getD_none]
      rw [join0_cons, empty_append_str]
      exact ih
    | some s =>
      by_cases hs : s = ""
      · subst hs
        simp only [List.filterMap_cons, List.map_cons, Option.getD_some, if_pos rfl]
        rw [join0_cons, empty_append_str]
        exact ih
      · simp only [List.filterMap_cons, List.map_cons, Option.getD_some, if_neg hs]
        rw [join0_cons, join0_cons, ih]

/-- `speak_text` never touches the chat history, the vectorstore, the chat
model or the audio cache: its only possible session write is `last_tts`. -/
theorem speak_text_frame (text lang : String) (play gtts : Bool)
    (outcome : Except String ByteData) (st : Session) :
    ((speak_text text lang play gtts outcome st).2.1).messages = st.messages ∧
    ((speak_text text lang play gtts outcome st).2.1).vectorstore = st.vectorstore ∧
    ((speak_text text lang play gtts outcome st).2.1).chat_model = st.chat_model ∧
    ((speak_text text lang play gtts outcome st).2.1).audio_cache = st.audio_cache := by
  by_cases h1 : text = ""
  · simp [speak_text, h1]
  · by_cases h2 : gtts = false
    · simp [speak_text, h1, h2]
    · cases outcome with
      | error e => simp [speak_text, h1, h2]
      | ok data => by_cases h3 : data = [] <;> simp [speak_text, h1, h2, h3]

/-- Inversion for a successful synthesis: `speak_text` returns audio bytes
only for non-empty text, with gTTS importable, a successful non-empty
synthesis outcome, the bytes cached in `last_tts`, and no error report. -/
theorem speak_text_some_inv (text lang : String) (play gtts : Bool)
    (o : Except String ByteData) (st : Session) (data : ByteData)
    (st2 : Session) (reps : List String)
    (h : speak_text text lang play gtts o st = (some data, st2, reps)) :
    text ≠ "" ∧ gtts = true ∧ o = Except.ok data ∧ data ≠ [] ∧
      st2 = { st with last_tts := some data } ∧ reps = [] := by
  by_cases h1 : text = ""
  · simp [speak_text, h1] at h
  · by_cases h2 : gtts = false
    · simp [speak_text, h1, h2] at h
    · have hg : gtts = true := by revert h2; cases gtts <;> simp
      cases o with
      | error e => simp [speak_text, h1, h2] at h
      | ok d =>
        by_cases h3 : d = []
        · simp [speak_text, h1, h2, h3] at h
        · simp [speak_text, h1, h2, h3] at h
          obtain ⟨hd, hst, hreps⟩ := h
          subst hd
          exact ⟨h1, hg, rfl, h3, hst.symm, hreps⟩

/-- A synthesis attempt with empty text, a raised synthesis error, empty
produced audio, or gTTS unavailable yields no audio and leaves the session
unchanged, after reporting some error. -/
theorem speak_text_fails (text : String) (g : Bool)
    (o : Except String ByteData) (st : Session)
    (h : text = "" ∨ (∃ e, o = Except.error e) ∨ o = Except.ok [] ∨ g = false) :
    ∃ reps, speak_text text "en" false g o st = (none, st, reps) := by
  by_cases hre : text = ""
  · exact ⟨["Text cannot be empty."], by simp [speak_text, hre]⟩
  · by_cases hg : g = false
    · exact ⟨["Text-to-speech is not available: please install `gTTS` in the Python environment running Streamlit (e.g., `pip install gTTS`)."],
        by simp [speak_text, hre, hg]⟩
    · rcases h with h | ⟨e, he⟩ | he | h
      · exact absurd h hre
      · exact ⟨["TTS failed: " ++ e], by rw [he]; simp [speak_text, hre, hg]⟩
      · exact ⟨["TTS generated no audio data."], by rw [he]; simp [speak_text, hre, hg]⟩
      · exact absurd h hg

/-- With no vectorstore or no chat model, the response part only reports
the upload-first warning. -/
theorem chatRespond_not_ready (st1 : Session) (q : String) (env : TurnEnv)
    (h : st1.vectorstore.isSome = false ∨ st1.chat_model.isSome = false) :
    chatRespond st1 q env =
      (st1, ["⚠️ Please upload and process documents first!"]) := by
  unfold chatRespond
  rcases h with h | h <;> simp [h]

/-- A retrieval failure is caught and reported; the session is returned as
it was when the response part was entered. -/
theorem chatRespond_retr_error (st1 : Session) (q : String) (env : TurnEnv)
    (e : String)
    (hv : st1.vectorstore.isSome = true) (hc : st1.chat_model.isSome = true)
    (hr : retrive_relevant_docs env.faissAvailable st1.vectorstore env.dist q =
      Except.error e) :
    chatRespond st1 q env = (st1, ["❌ Error generating response: " ++ e]) := by
  unfold chatRespond
  simp [hv, hc, hr]

/-- A completion failure is caught and reported; the session is returned as
it was when the response part was entered. -/
theorem chatRespond_ask_error (st1 : Session) (q : String) (env : TurnEnv)
    (docs : List String) (e : String)
    (hv : st1.vectorstore.isSome = true) (hc : st1.chat_model.isSome = true)
    (hr : retrive_relevant_docs env.faissAvailable st1.vectorstore env.dist q =
      Except.ok docs)
    (ha : ask_chat_model env.invoke (mkSystemPrompt docs q) = Except.error e) :
    chatRespond st1 q env = (st1, ["❌ Error generating response: " ++ e]) := by
  unfold chatRespond
  simp [hv, hc, hr, ha]

/-- When synthesis yields no audio, the assistant message is still appended
(without an audio id), the audio-generation warning is reported, and the
audio cache is untouched. -/
theorem chatRespond_noaudio (st1 : Session) (q : String) (env : TurnEnv)
    (docs : List String) (r : String) (st2 : Session) (reps : List String)
    (hv : st1.vectorstore.isSome = true) (hc : st1.chat_model.isSome = true)
    (hr : retrive_relevant_docs env.faissAvailable st1.vectorstore env.dist q =
      Except.ok docs)
    (ha : ask_chat_model env.invoke (mkSystemPrompt docs q) = Except.ok r)
    (hs : speak_text r "en" false env.gttsAvailable env.gttsOutcome st1 =
      (none, st2, reps)) :
    chatRespond st1 q env =
      ({ st2 with
          messages := st2.messages ++ [assistantMessage r env.timestamp none] },
       reps ++ ["⚠️ Audio generation failed, but text response is available"]) := by
  unfold chatRespond
  simp [hv, hc, hr, ha, hs]

/-- When synthesis yields audio, the bytes are cached under the fresh audio
id and the assistant message carries that id. -/
theorem chatRespond_audio (st1 : Session) (q : String) (env : TurnEnv)
    (docs : List String) (r : String) (data : ByteData) (st2 : Session)
    (reps : List String)
    (hv : st1.vectorstore.isSome = true) (hc : st1.chat_model.isSome = true)
    (hr : retrive_relevant_docs env.faissAvailable st1.vectorstore env.dist q =
      Except.ok docs)
    (ha : ask_chat_model env.invoke (mkSystemPrompt docs q) = Except.ok r)
    (hs : speak_text r "en" false env.gttsAvailable env.gttsOutcome st1 =
      (some data, st2, reps)) :
    chatRespond st1 q env =
      ({ st2 with
          audio_cache := st2.audio_cache ++ [(env.audioId, data)],
          messages := st2.messages ++
            [assistantMessage r env.timestamp (some env.audioId)] },
       reps) := by
  unfold chatRespond
  simp [hv, hc, hr, ha, hs]

/-- The response part never writes the vectorstore or the chat model. -/
theorem chatRespond_frame (st1 : Session) (q : String) (env : TurnEnv) :
    (chatRespond st1 q env).fst.vectorstore = st1.vectorstore ∧
    (chatRespond st1 q env).fst.chat_model = st1.chat_model := by
  unfold chatRespond
  split
  · split
    next e heq => exact ⟨rfl, rfl⟩
    next relevant_docs hretr =>
      split
      next e heq => exact ⟨rfl, rfl⟩
      next response hresp =>
        split
        next data st2 reps heq =>
          have h := speak_text_frame response "en" false env.gttsAvailable
            env.gttsOutcome st1
          rw [heq] at h
          exact ⟨h.2.1, h.2.2.1⟩
        next st2 reps heq =>
          have h := speak_text_frame response "en" false env.gttsAvailable
            env.gttsOutcome st1
          rw [heq] at h
          exact ⟨h.2.1, h.2.2.1⟩
  · exact ⟨rfl, rfl⟩

/-! ### Claims -/

/-- C4 (as stated) is false on the code: the grounding prompt is NOT of the
form "context, then question, then instruction" — for the retrieved context
`"CTX"` and question `"Q"` there is no instruction suffix completing
`"CTX" ++ "Q"` to the built prompt, because the prompt opens with the fixed
instruction block, not with the context. -/
theorem C4_counterexample :
    ¬ ∃ instr : String,
      mkSystemPrompt ["CTX"] "Q" = ("CTX" ++ "Q") ++ instr := by
  rintro ⟨instr, h⟩
  have h2 : (mkSystemPrompt ["CTX"] "Q").data.head? =
      ((("CTX" ++ "Q") ++ instr).data).head? := by rw [h]
  rw [String.data_append] at h2
  have h3 : ("CTX" ++ "Q").data = ['C', 'T', 'X', 'Q'] := by decide
  rw [h3] at h2
  have h4 : (mkSystemPrompt ["CTX"] "Q").data.head? = some 'Y' := by decide
  rw [h4] at h2
  rw [show ((['C', 'T', 'X', 'Q'] ++ instr.data).head? = some 'C') from rfl] at h2
  exact absurd h2 (by decide)

set_option maxRecDepth 10000 in
/-- C4 amended: the grounding prompt is composed as the fixed instruction
block (answer from the supplied documents, state explicitly when
information is absent, cite which part of the documents is referenced),
followed by the retrieved chunk texts joined by blank lines in
retrieval-rank order as context, followed by the literal user question,
followed by a closing request for a comprehensive answer. -/
theorem C4_amended_prompt_composition (docs : List String) (q : String) :
    mkSystemPrompt docs q =
      instructionBlock ++ mkContext docs ++ "\nUser Question: " ++ q ++
        "\nPlease provide a comprehensive answer:" ∧
    (∃ a b : String, instructionBlock =
      a ++ "If the information is NOT in the documents, clearly state that." ++ b) ∧
    (∃ a b : String, instructionBlock =
      a ++ "Always cite which part of the documents you\x27re referencing when possible." ++ b) ∧
    mkContext [] = "" ∧ (∀ d, mkContext [d] = d) ∧
    (∀ a b l, mkContext (a :: b :: l) = a ++ "\n\n" ++ mkContext (b :: l)) := by
  refine ⟨rfl, ?_, ?_, rfl, fun d => rfl, fun a b l => rfl⟩
  · exact ⟨"You are an intelligent expense document assistant specializing in analyzing expense documents.\nBased on the following expense documents, provide accurate and helpful answers to user questions.\n- If the information is in the documents, provide a detailed answer with specific details.\n- ",
      "\n- Always cite which part of the documents you\x27re referencing when possible.\nExpense Documents Context:\n", by decide⟩
  · exact ⟨"You are an intelligent expense document assistant specializing in analyzing expense documents.\nBased on the following expense documents, provide accurate and helpful answers to user questions.\n- If the information is in the documents, provide a detailed answer with specific details.\n- If the information is NOT in the documents, clearly state that.\n- ",
      "\nExpense Documents Context:\n", by decide⟩

/-- C5: chunking text `T` with maximum chunk size `C` and overlap `O < C`
yields zero chunks when `T` is empty, exactly the one chunk `T` when `T` is
non-empty and shorter than `C`, and in general only chunks of length at
most `C`. -/
theorem C5_chunker_contract (C O : Nat) (T : String) (hO : O < C) :
    (T = "" → split_text C O T = []) ∧
    (T ≠ "" → T.length < C → split_text C O T = [T]) ∧
    (∀ c ∈ split_text C O T, c.length ≤ C) := by
  refine ⟨?_, ?_, ?_⟩
  · rintro rfl; rfl
  · intro hne hlt
    have hd : T.data ≠ [] := by
      intro hnil; apply hne; cases T; simp at hnil; simp [hnil]
    have hd0 : ¬ T.data.length = 0 := fun h0 => hd (List.length_eq_zero.mp h0)
    obtain ⟨n, hn⟩ := Nat.exists_eq_succ_of_ne_zero hd0
    show (chunkGo C O T.data.length T.data).map String.mk = [T]
    rw [hn]
    have hle : T.data.length ≤ C := le_of_lt hlt
    simp only [chunkGo]
    rw [if_neg hd0, if_pos (Or.inl hle)]
    rfl
  · intro c hc
    simp only [split_text, List.mem_map] at hc
    obtain ⟨l, hl, rfl⟩ := hc
    exact chunkGo_length_le C O hO T.data.length T.data l hl

/-- Witness for C5 at `C = 5`, `O = 2`, `T = "ab"` and `T = ""`. -/
theorem C5_chunker_contract_witness :
    split_text 5 2 "ab" = ["ab"] ∧ split_text 5 2 "" = [] ∧
    ∀ c ∈ split_text 5 2 "ab", c.length ≤ 5 := by
  have h := C5_chunker_contract 5 2 "ab" (by decide)
  have h0 := C5_chunker_contract 5 2 "" (by decide)
  exact ⟨h.2.1 (by decide) (by decide), h0.1 rfl, h.2.2⟩

/-- C6: for a parseable document, extraction returns the concatenation of
all page texts in page order with no separator, pages with no extractable
text contributing the empty string without error; for an unparseable
stream it fails with the reported extraction error. -/
theorem C6_extractor_contract :
    (∀ doc : PdfDoc, extract_text_from_pdf (Except.ok doc) =
      Except.ok (join0 (doc.pages.map (fun p => p.getD "")))) ∧
    (∀ e, extract_text_from_pdf (Except.error e) =
      Except.error ("Error reading PDF: " ++ e)) := by
  constructor
  · intro doc
    simp only [extract_text_from_pdf]
    rw [join0_filter_falsy]
  · intro e; rfl

/-- C7: retrieval with `K ≥ 1` over a built index returns exactly `K`
chunks when the index holds at least `K`, returns all indexed chunks
without duplicates when it holds fewer than `K`, and the ranked ids are
ordered by ascending distance (descending similarity) to the query. -/
theorem C7_retrieval_topk (vs : SearchIndex) (d : Nat → Nat) (k : Nat)
    (hk : 1 ≤ k) :
    (k ≤ vs.chunks.length → (similaritySearch vs d k).length = k) ∧
    (vs.chunks.length < k →
      List.Perm (rankedIds vs.chunks.length d k)
        (List.range vs.chunks.length) ∧
      (rankedIds vs.chunks.length d k).Nodup ∧
      (similaritySearch vs d k).length = vs.chunks.length) ∧
    List.Pairwise (fun i j => d i ≤ d j) (rankedIds vs.chunks.length d k) := by
  haveI ht : IsTotal Nat (fun i j => d i ≤ d j) :=
    ⟨fun a b => Nat.le_total (d a) (d b)⟩
  haveI htr : IsTrans Nat (fun i j => d i ≤ d j) :=
    ⟨fun a b c hab hbc => Nat.le_trans hab hbc⟩
  refine ⟨?_, ?_, ?_⟩
  · intro hkn
    simp [similaritySearch, rankedIds, List.length_take]
    omega
  · intro hnk
    have hlen : (List.insertionSort (fun i j => d i ≤ d j)
        (List.range vs.chunks.length)).length ≤ k := by
      simp; omega
    have htake : rankedIds vs.chunks.length d k =
        List.insertionSort (fun i j => d i ≤ d j)
          (List.range vs.chunks.length) :=
      List.take_of_length_le hlen
    refine ⟨?_, ?_, ?_⟩
    · rw [htake]; exact List.perm_insertionSort _ _
    · rw [htake]
      exact ((List.perm_insertionSort _ _).nodup_iff).mpr (List.nodup_range _)
    · simp [similaritySearch, rankedIds, List.length_take]
      omega
  · exact List.Pairwise.sublist (List.take_sublist _ _)
      (List.sorted_insertionSort _ _)

/-- Witness for C7 over a three-chunk index, once with `K = 2 ≤ 3` and once
with `K = 4 > 3`. -/
theorem C7_retrieval_topk_witness :
    (similaritySearch ⟨["alpha", "beta", "gamma"]⟩ (fun i => 10 - i) 2).length = 2 ∧
    List.Perm (rankedIds 3 (fun i => 10 - i) 4) (List.range 3) ∧
    (rankedIds 3 (fun i => 10 - i) 4).Nodup := by
  have h2 := C7_retrieval_topk ⟨["alpha", "beta", "gamma"]⟩ (fun i => 10 - i) 2 (by decide)
  have h4 := C7_retrieval_topk ⟨["alpha", "beta", "gamma"]⟩ (fun i => 10 - i) 4 (by decide)
  exact ⟨h2.1 (by decide), (h4.2.1 (by decide)).1, (h4.2.1 (by decide)).2.1⟩


/-- C1 (as stated) is false on the code: when ingestion fails at the
chat-model-creation step, the error is reported but the session does NOT
return to the empty state — the freshly built search index has already
been stored in `st.session_state.vectorstore`.  Concretely, processing one
valid one-page document with FAISS available and a failing
`create_chat_model` leaves a vectorstore in the session. -/
theorem C1_counterexample :
    (processDocuments emptySession [Except.ok ⟨[some "hello receipt"]⟩] true
      (Except.error "auth failed")).fst.vectorstore ≠ none ∧
    (processDocuments emptySession [Except.ok ⟨[some "hello receipt"]⟩] true
      (Except.error "auth failed")).snd =
      ["❌ Error processing documents: Failed to create chat model: auth failed"] := by
  constructor
  · decide
  · rfl

/-- C1 amended: an ingestion failure at extraction (and likewise at
chunking, which cannot itself fail) or at index construction reports the
error and leaves the session exactly as before; a failure at chat-model
creation reports the error and leaves the chat model, chat history and
audio cache unchanged, but the newly built index has already replaced
`vectorstore` in the session. -/
theorem C1_amended_ingestion_failure (st : Session)
    (files : List (Except String PdfDoc)) (fa : Bool)
    (cmr : Except String ChatModel) :
    (∀ e, extractAll files = Except.error e →
      processDocuments st files fa cmr =
        (st, ["❌ Error processing documents: " ++ e])) ∧
    (∀ texts, extractAll files = Except.ok texts → fa = false →
      processDocuments st files fa cmr =
        (st, ["❌ Error processing documents: FAISS is not available in this environment.\nTo enable FAISS, deploy with a conda environment that installs \x27faiss-cpu\x27\nor use a Docker image that includes prebuilt FAISS binaries.\nAs a quick workaround, you can skip document indexing in this environment."])) ∧
    (∀ texts e, extractAll files = Except.ok texts → fa = true →
      cmr = Except.error e →
      (processDocuments st files fa cmr).fst.vectorstore =
        some ⟨chunksOf texts⟩ ∧
      (processDocuments st files fa cmr).fst.chat_model = st.chat_model ∧
      (processDocuments st files fa cmr).fst.messages = st.messages ∧
      (processDocuments st files fa cmr).fst.audio_cache = st.audio_cache ∧
      (processDocuments st files fa cmr).snd =
        ["❌ Error processing documents: " ++
          ("Failed to create chat model: " ++ e)]) := by
  refine ⟨?_, ?_, ?_⟩
  · intro e he
    simp [processDocuments, he]
  · intro texts ht hfa
    simp [processDocuments, ht, hfa, create_faiss_index]
  · intro texts e ht hfa hc
    simp [processDocuments, ht, hfa, hc, create_faiss_index, get_chat_model]

/-- Witness for C1 amended: a corrupt stream, a missing FAISS dependency,
and a failing chat-model creation, each on a concrete session. -/
theorem C1_amended_ingestion_failure_witness :
    processDocuments emptySession [Except.error "corrupt header"] true
      (Except.ok 0) =
      (emptySession,
       ["❌ Error processing documents: Error reading PDF: corrupt header"]) ∧
    (processDocuments emptySession [Except.ok ⟨[some "x"]⟩] false
      (Except.ok 0)).fst = emptySession ∧
    (processDocuments emptySession [Except.ok ⟨[some "x"]⟩] true
      (Except.error "boom")).fst.chat_model = none := by
  have h1 := C1_amended_ingestion_failure emptySession
    [Except.error "corrupt header"] true (Except.ok 0)
  have h2 := C1_amended_ingestion_failure emptySession
    [Except.ok ⟨[some "x"]⟩] false (Except.ok 0)
  have h3 := C1_amended_ingestion_failure emptySession
    [Except.ok ⟨[some "x"]⟩] true (Except.error "boom")
  refine ⟨h1.1 "Error reading PDF: corrupt header" rfl, ?_, ?_⟩
  · rw [h2.2.1 ["x"] rfl rfl]
  · exact (h3.2.2 ["x"] "boom" rfl rfl rfl).2.1

/-- C2: querying while the index is unset yields the reported retrieval
error and never a crash — the raw retrieval call fails with the
unavailability `RuntimeError`, and the orchestrator guard reports the
upload-first error instead of producing any generated answer (no assistant
message is added to the history). -/
theorem C2_query_before_ingest (st : Session) (q : String) (env : TurnEnv)
    (h : st.vectorstore = none) :
    (∀ fa d kk, retrive_relevant_docs fa st.vectorstore d q kk =
      Except.error "Vector search is not available because FAISS is missing or vectorstore is not initialized.") ∧
    (chatTurn st q env).snd = ["⚠️ Please upload and process documents first!"] ∧
    (chatTurn st q env).fst.messages =
      st.messages ++ [userMessage q env.timestamp] ∧
    (∀ m ∈ (chatTurn st q env).fst.messages,
      m.role = "assistant" → m ∈ st.messages) := by
  have hnr := chatRespond_not_ready (withUserMessage st q env.timestamp) q env
    (Or.inl (by simp [withUserMessage, h]))
  refine ⟨?_, ?_, ?_, ?_⟩
  · intro fa d kk
    rw [h]
    cases fa <;> rfl
  · simp only [chatTurn]
    rw [hnr]
  · simp only [chatTurn]
    rw [hnr]
    simp [withUserMessage]
  · intro m hm hrole
    simp only [chatTurn] at hm
    rw [hnr] at hm
    simp only [withUserMessage] at hm
    rcases List.mem_append.mp hm with h1 | h1
    · exact h1
    · rcases List.mem_singleton.mp h1 with rfl
      have hu : (userMessage q env.timestamp).role = "user" := rfl
      rw [hu] at hrole
      exact absurd hrole (by decide)

/-- Witness for C2 on the initial session. -/
theorem C2_query_before_ingest_witness :
    (chatTurn emptySession "how much did I spend" ⟨true, fun _ i => i,
      fun _ => Except.ok (some "a"), true, Except.ok [1], "aid", "12:00"⟩).snd =
      ["⚠️ Please upload and process documents first!"] ∧
    retrive_relevant_docs true emptySession.vectorstore (fun _ i => i)
      "how much did I spend" 4 =
      Except.error "Vector search is not available because FAISS is missing or vectorstore is not initialized." := by
  have h := C2_query_before_ingest emptySession "how much did I spend"
    ⟨true, fun _ i => i, fun _ => Except.ok (some "a"), true, Except.ok [1],
      "aid", "12:00"⟩ rfl
  exact ⟨h.2.1, h.1 true (fun _ i => i) 4⟩

/-- C3: the answer generator returns the backend response content verbatim
when one is obtained, returns exactly "No response received." when the
backend yields no usable content, and when the completion call raises, the
orchestrator catches the error and reports it instead of crashing (no
assistant message is produced, the history only gains the user turn). -/
theorem C3_answer_generator_contract
    (invoke : String → Except String (Option String)) (p : String) :
    (∀ c, invoke p = Except.ok (some c) →
      ask_chat_model invoke p = Except.ok c) ∧
    (invoke p = Except.ok none →
      ask_chat_model invoke p = Except.ok "No response received.") ∧
    (∀ e, invoke p = Except.error e →
      ask_chat_model invoke p =
        Except.error ("Error during query to chat model: " ++ e)) ∧
    (∀ st env vs cm e, st.vectorstore = some vs → st.chat_model = some cm →
      env.faissAvailable = true → env.invoke = invoke →
      invoke (mkSystemPrompt (similaritySearch vs (env.dist p) 4) p) =
        Except.error e →
      (chatTurn st p env).snd =
        ["❌ Error generating response: " ++
          ("Error during query to chat model: " ++ e)] ∧
      (chatTurn st p env).fst.messages =
        st.messages ++ [userMessage p env.timestamp]) := by
  refine ⟨?_, ?_, ?_, ?_⟩
  · intro c hc
    simp [ask_chat_model, hc]
  · intro hc
    simp [ask_chat_model, hc]
  · intro e he
    simp [ask_chat_model, he]
  · intro st env vs cm e hv hc hf hinv herr
    have hr : retrive_relevant_docs env.faissAvailable
        (withUserMessage st p env.timestamp).vectorstore env.dist p =
        Except.ok (similaritySearch vs (env.dist p) 4) := by
      simp [withUserMessage, retrive_relevant_docs, hv, hf]
    have ha : ask_chat_model env.invoke
        (mkSystemPrompt (similaritySearch vs (env.dist p) 4) p) =
        Except.error ("Error during query to chat model: " ++ e) := by
      rw [hinv]
      simp [ask_chat_model, herr]
    have hae := chatRespond_ask_error (withUserMessage st p env.timestamp) p env
      (similaritySearch vs (env.dist p) 4) _
      (by simp [withUserMessage, hv]) (by simp [withUserMessage, hc]) hr ha
    constructor
    · simp only [chatTurn]
      rw [hae]
    · simp only [chatTurn]
      rw [hae]
      simp [withUserMessage]

/-- Witness for C3: a concrete backend with content, one with a falsy
response, one that raises, and a raising completion inside a ready chat
turn. -/
theorem C3_answer_generator_contract_witness :
    ask_chat_model (fun _ => Except.ok (some "42 dollars")) "p" =
      Except.ok "42 dollars" ∧
    ask_chat_model (fun _ => Except.ok none) "p" =
      Except.ok "No response received." ∧
    ask_chat_model (fun _ => Except.error "timeout") "p" =
      Except.error ("Error during query to chat model: " ++ "timeout") ∧
    (chatTurn ⟨[], some ⟨["c1"]⟩, some 0, [], none⟩ "p"
      ⟨true, fun _ i => i, fun _ => Except.error "timeout", true,
        Except.ok [1], "aid", "12:00"⟩).snd =
      ["❌ Error generating response: " ++
        ("Error during query to chat model: " ++ "timeout")] := by
  have h1 := C3_answer_generator_contract
    (fun _ => Except.ok (some "42 dollars")) "p"
  have h2 := C3_answer_generator_contract (fun _ => Except.ok none) "p"
  have h3 := C3_answer_generator_contract (fun _ => Except.error "timeout") "p"
  refine ⟨h1.1 "42 dollars" rfl, h2.2.1 rfl, h3.2.2.1 "timeout" rfl, ?_⟩
  exact (h3.2.2.2 ⟨[], some ⟨["c1"]⟩, some 0, [], none⟩
    ⟨true, fun _ i => i, fun _ => Except.error "timeout", true, Except.ok [1],
      "aid", "12:00"⟩ ⟨["c1"]⟩ 0 "timeout" rfl rfl rfl rfl rfl).1

/-- C8: no question-answering turn — in particular no failed one — ever
changes the session vectorstore or chat model: the index is never
invalidated or mutated by a query, so a ready system stays queryable. -/
theorem C8_answering_frame (st : Session) (q : String) (env : TurnEnv) :
    (chatTurn st q env).fst.vectorstore = st.vectorstore ∧
    (chatTurn st q env).fst.chat_model = st.chat_model := by
  have h := chatRespond_frame (withUserMessage st q env.timestamp) q env
  exact ⟨h.1, h.2⟩

/-- C9: when the speech-synthesis backend raises, produces no audio, or is
unavailable, the answer turn still completes: the assistant text answer is
recorded in the history with no audio attached, the audio cache is
untouched, and only the non-fatal audio warning (after the synthesis error
report) is added. -/
theorem C9_tts_failure_nonfatal (st : Session) (q : String) (env : TurnEnv)
    (vs : SearchIndex) (cm : ChatModel) (r : String)
    (hv : st.vectorstore = some vs) (hc : st.chat_model = some cm)
    (hf : env.faissAvailable = true)
    (hr : env.invoke (mkSystemPrompt (similaritySearch vs (env.dist q) 4) q) =
      Except.ok (some r))
    (hsyn : (∃ e, env.gttsOutcome = Except.error e) ∨
      env.gttsOutcome = Except.ok [] ∨ env.gttsAvailable = false) :
    (chatTurn st q env).fst.messages =
      st.messages ++ [userMessage q env.timestamp,
        assistantMessage r env.timestamp none] ∧
    (chatTurn st q env).fst.audio_cache = st.audio_cache ∧
    ∃ reps, (chatTurn st q env).snd =
      reps ++ ["⚠️ Audio generation failed, but text response is available"] := by
  obtain ⟨reps, hs⟩ := speak_text_fails r env.gttsAvailable env.gttsOutcome
    (withUserMessage st q env.timestamp) (Or.inr hsyn)
  have hretr : retrive_relevant_docs env.faissAvailable
      (withUserMessage st q env.timestamp).vectorstore env.dist q =
      Except.ok (similaritySearch vs (env.dist q) 4) := by
    simp [withUserMessage, retrive_relevant_docs, hv, hf]
  have ha : ask_chat_model env.invoke
      (mkSystemPrompt (similaritySearch vs (env.dist q) 4) q) =
      Except.ok r := by
    simp [ask_chat_model, hr]
  have hn := chatRespond_noaudio (withUserMessage st q env.timestamp) q env
    (similaritySearch vs (env.dist q) 4) r (withUserMessage st q env.timestamp)
    reps (by simp [withUserMessage, hv]) (by simp [withUserMessage, hc])
    hretr ha hs
  refine ⟨?_, ?_, ⟨reps, ?_⟩⟩
  · simp only [chatTurn]
    rw [hn]
    simp [withUserMessage]
  · simp only [chatTurn]
    rw [hn]
    simp [withUserMessage]
  · simp only [chatTurn]
    rw [hn]

/-- Witness for C9: a ready session, an answering backend, and a synthesis
backend that raises. -/
theorem C9_tts_failure_nonfatal_witness :
    (chatTurn ⟨[], some ⟨["c1"]⟩, some 0, [], none⟩ "q"
      ⟨true, fun _ i => i, fun _ => Except.ok (some "ans"), true,
        Except.error "synth down", "aid", "12:00"⟩).fst.messages =
      [userMessage "q" "12:00", assistantMessage "ans" "12:00" none] ∧
    (chatTurn ⟨[], some ⟨["c1"]⟩, some 0, [], none⟩ "q"
      ⟨true, fun _ i => i, fun _ => Except.ok (some "ans"), true,
        Except.error "synth down", "aid", "12:00"⟩).fst.audio_cache = [] := by
  have h := C9_tts_failure_nonfatal ⟨[], some ⟨["c1"]⟩, some 0, [], none⟩ "q"
    ⟨true, fun _ i => i, fun _ => Except.ok (some "ans"), true,
      Except.error "synth down", "aid", "12:00"⟩ ⟨["c1"]⟩ 0 "ans"
    rfl rfl rfl rfl (Or.inl ⟨"synth down", rfl⟩)
  exact ⟨h.1, h.2.1⟩

/-- C10: synthesising the empty text reports the emptiness error, returns
no audio and leaves the whole session — audio cache included — unchanged;
audio bytes are returned only for non-empty text; `speak_text` itself never
touches the audio cache; and a chat turn either leaves the audio cache
unchanged or appends exactly one entry whose bytes come from a successful
non-empty synthesis of a non-empty response. -/
theorem C10_empty_text_tts (lang : String) (play gtts : Bool)
    (outcome : Except String ByteData) (st : Session) :
    speak_text "" lang play gtts outcome st =
      (none, st, ["Text cannot be empty."]) ∧
    (∀ text data st2 reps,
      speak_text text lang play gtts outcome st = (some data, st2, reps) →
      text ≠ "") ∧
    (∀ text,
      ((speak_text text lang play gtts outcome st).2.1).audio_cache =
        st.audio_cache) ∧
    (∀ st0 q env, (chatTurn st0 q env).fst.audio_cache = st0.audio_cache ∨
      ∃ data resp, resp ≠ "" ∧ env.gttsOutcome = Except.ok data ∧
        data ≠ [] ∧
        (chatTurn st0 q env).fst.audio_cache =
          st0.audio_cache ++ [(env.audioId, data)]) := by
  refine ⟨by simp [speak_text], ?_, ?_, ?_⟩
  · intro text data st2 reps hsp
    exact (speak_text_some_inv text lang play gtts outcome st data st2 reps hsp).1
  · intro text
    exact (speak_text_frame text lang play gtts outcome st).2.2.2
  · intro st0 q env
    simp only [chatTurn]
    unfold chatRespond
    split
    · split
      next e heq => left; rfl
      next relevant_docs hretr =>
        split
        next e heq => left; rfl
        next response hresp =>
          split
          next data st2 reps heq =>
            obtain ⟨hne, hg, ho, hd, hst2, hreps⟩ := speak_text_some_inv
              response "en" false env.gttsAvailable env.gttsOutcome
              (withUserMessage st0 q env.timestamp) data st2 reps heq
            right
            refine ⟨data, response, hne, ho, hd, ?_⟩
            have hac : st2.audio_cache =
                (withUserMessage st0 q env.timestamp).audio_cache := by
              rw [hst2]
            rw [show ({ st2 with
                audio_cache := st2.audio_cache ++ [(env.audioId, data)],
                messages := st2.messages ++ [assistantMessage response
                  env.timestamp (some env.audioId)] } : Session).audio_cache =
                st2.audio_cache ++ [(env.audioId, data)] from rfl]
            rw [hac]
            rfl
          next st2 reps heq =>
            left
            have h := speak_text_frame response "en" false env.gttsAvailable
              env.gttsOutcome (withUserMessage st0 q env.timestamp)
            rw [heq] at h
            exact h.2.2.2
    · left; rfl

/-- Witness for C10: the empty text on a concrete session, and a
successful synthesis showing the non-emptiness consequence. -/
theorem C10_empty_text_tts_witness :
    speak_text "" "en" false true (Except.ok [1, 2]) emptySession =
      (none, emptySession, ["Text cannot be empty."]) ∧
    ("hi" : String) ≠ "" := by
  have h := C10_empty_text_tts "en" false true (Except.ok [1, 2]) emptySession
  refine ⟨h.1, ?_⟩
  exact h.2.1 "hi" [1, 2] { emptySession with last_tts := some [1, 2] } [] rfl

end ExpenseTracker
